import Mathlib

/-!
Shallow embedding of the mirage-engine rendering/ECS core.

Scalar values of type `f32`/`f64` in the Rust source are modelled as
rationals (`ℚ`); `u32`/`usize` counters as `ℕ`.  GPU-side buffers are
modelled by their decoded contents (lists of records / column-major
matrices), and GPU writes as explicit effect values, so that every
operation of the source becomes a pure state-transforming function.
Transcendental functions (`sin`/`cos`, used only by
`Quat::from_rotation_z`) are passed in as parameters, since no settled
property depends on their values.
-/

namespace Mirage

/-- Embeds `glam::Vec2`, components as rationals. -/
structure Vec2 where
  x : ℚ
  y : ℚ
deriving DecidableEq, Repr

/-- Embeds `glam::Vec3`. -/
structure Vec3 where
  x : ℚ
  y : ℚ
  z : ℚ
deriving DecidableEq, Repr

/-- Embeds `glam::Vec4`. -/
structure Vec4 where
  x : ℚ
  y : ℚ
  z : ℚ
  w : ℚ
deriving DecidableEq, Repr

/-- Embeds `glam::Quat`: quaternion `x*i + y*j + z*k + w`. -/
structure Quat where
  x : ℚ
  y : ℚ
  z : ℚ
  w : ℚ
deriving DecidableEq, Repr

def Vec2.add (a b : Vec2) : Vec2 := ⟨a.x + b.x, a.y + b.y⟩

def Vec2.smul (a : Vec2) (s : ℚ) : Vec2 := ⟨a.x * s, a.y * s⟩

def Vec2.zero : Vec2 := ⟨0, 0⟩

def Vec2.one : Vec2 := ⟨1, 1⟩

def Vec3.zero : Vec3 := ⟨0, 0, 0⟩

def Vec3.one : Vec3 := ⟨1, 1, 1⟩

def Quat.identity : Quat := ⟨0, 0, 0, 1⟩

/-- Embeds `glam::Mat4`, stored as four columns exactly like the source type. -/
structure Mat4 where
  xAxis : Vec4
  yAxis : Vec4
  zAxis : Vec4
  wAxis : Vec4
deriving DecidableEq, Repr

def Vec4.addV (a b : Vec4) : Vec4 := ⟨a.x + b.x, a.y + b.y, a.z + b.z, a.w + b.w⟩

def Vec4.smulV (a : Vec4) (s : ℚ) : Vec4 := ⟨a.x * s, a.y * s, a.z * s, a.w * s⟩

/-- Matrix-vector product (columns weighted by the vector's components),
as in `glam`'s `Mat4::mul_vec4`. -/
def Mat4.mulVec4 (m : Mat4) (v : Vec4) : Vec4 :=
  ((m.xAxis.smulV v.x).addV (m.yAxis.smulV v.y)).addV
    ((m.zAxis.smulV v.z).addV (m.wAxis.smulV v.w))

/-- Matrix product, as in `glam`'s `Mat4::mul_mat4`: each column of the
result is `self * rhs.col`. -/
def Mat4.mul (m n : Mat4) : Mat4 :=
  ⟨m.mulVec4 n.xAxis, m.mulVec4 n.yAxis, m.mulVec4 n.zAxis, m.mulVec4 n.wAxis⟩

/-- Embeds `glam::Mat4::from_translation`. -/
def Mat4.fromTranslation (t : Vec3) : Mat4 :=
  ⟨⟨1, 0, 0, 0⟩, ⟨0, 1, 0, 0⟩, ⟨0, 0, 1, 0⟩, ⟨t.x, t.y, t.z, 1⟩⟩

/-- Embeds `glam::Mat4::from_scale`. -/
def Mat4.fromScale (s : Vec3) : Mat4 :=
  ⟨⟨s.x, 0, 0, 0⟩, ⟨0, s.y, 0, 0⟩, ⟨0, 0, s.z, 0⟩, ⟨0, 0, 0, 1⟩⟩

/-- Embeds `glam::Mat4::from_quat` (rotation matrix of a unit quaternion). -/
def Mat4.fromQuat (q : Quat) : Mat4 :=
  let x2 := q.x + q.x
  let y2 := q.y + q.y
  let z2 := q.z + q.z
  let xx := q.x * x2
  let xy := q.x * y2
  let xz := q.x * z2
  let yy := q.y * y2
  let yz := q.y * z2
  let zz := q.z * z2
  let wx := q.w * x2
  let wy := q.w * y2
  let wz := q.w * z2
  ⟨⟨1 - (yy + zz), xy + wz, xz - wy, 0⟩,
   ⟨xy - wz, 1 - (xx + zz), yz + wx, 0⟩,
   ⟨xz + wy, yz - wx, 1 - (xx + yy), 0⟩,
   ⟨0, 0, 0, 1⟩⟩

/-- Embeds `glam::Mat4::orthographic_rh`. -/
def Mat4.orthographicRh (left right bottom top near far : ℚ) : Mat4 :=
  let rcpWidth := 1 / (right - left)
  let rcpHeight := 1 / (top - bottom)
  let r := 1 / (near - far)
  ⟨⟨rcpWidth + rcpWidth, 0, 0, 0⟩,
   ⟨0, rcpHeight + rcpHeight, 0, 0⟩,
   ⟨0, 0, r, 0⟩,
   ⟨-(left + right) * rcpWidth, -(top + bottom) * rcpHeight, r * near, 1⟩⟩

/-- Embeds `glam::Mat4::to_cols_array_2d`: the matrix as four column arrays,
i.e. the column-major layout the uniform buffers hold. -/
def Mat4.toColsArray2d (m : Mat4) : List (List ℚ) :=
  [[m.xAxis.x, m.xAxis.y, m.xAxis.z, m.xAxis.w],
   [m.yAxis.x, m.yAxis.y, m.yAxis.z, m.yAxis.w],
   [m.zAxis.x, m.zAxis.y, m.zAxis.z, m.zAxis.w],
   [m.wAxis.x, m.wAxis.y, m.wAxis.z, m.wAxis.w]]

/-- Apply a matrix to a 3D point in homogeneous coordinates (`w = 1`),
dropping the `w` component: how the vertex shader transforms positions. -/
def Mat4.transformPoint3 (m : Mat4) (v : Vec3) : Vec3 :=
  let r := m.mulVec4 ⟨v.x, v.y, v.z, 1⟩
  ⟨r.x, r.y, r.z⟩

/-! ## `src/rendering/model.rs` -/

/-- Embeds `ModelTransform` (re-exported as `Transform`): position, quaternion
rotation and scale of an instance. -/
structure ModelTransform where
  position : Vec3
  rotation : Quat
  scale : Vec3
deriving DecidableEq, Repr

/-- Embeds `ModelTransform::default`. -/
def ModelTransform.default : ModelTransform := ⟨Vec3.zero, Quat.identity, Vec3.one⟩

/-- Embeds `ModelTransform::with_position`. -/
def ModelTransform.with_position (p : Vec3) : ModelTransform := ⟨p, Quat.identity, Vec3.one⟩

/-- Embeds `ModelTransform::model_matrix`: builds the translation, rotation and
scale matrices and returns `translation * rotation * scale`. -/
def ModelTransform.model_matrix (t : ModelTransform) : Mat4 :=
  let translation := Mat4.fromTranslation t.position
  let rotation := Mat4.fromQuat t.rotation
  let scale := Mat4.fromScale t.scale
  (translation.mul rotation).mul scale

/-- Contents of a `ModelUniform`: the model matrix as column arrays,
exactly the decoded contents of the model's GPU uniform buffer. -/
abbrev ModelUniform := List (List ℚ)

/-- Embeds `Model`: mesh and material are shared opaque handles (irrelevant to
the settled claims, kept as unit fields); `transform` is the CPU-side
field; `model_buffer`, when present, is modelled by the decoded contents
the GPU buffer currently holds. -/
structure Model where
  mesh : Unit
  material : Unit
  transform : ModelTransform
  model_bind_group : Option Unit
  model_buffer : Option ModelUniform
deriving DecidableEq

/-- Embeds `Model::new_with_device`: seeds the uniform buffer with the column
arrays of `transform.model_matrix()` and stores `transform`. -/
def Model.new_with_device (transform : ModelTransform) : Model :=
  { mesh := ()
    material := ()
    transform := transform
    model_bind_group := some ()
    model_buffer := some transform.model_matrix.toColsArray2d }

/-- Embeds `Model::update_transform(&self, queue, transform)`: when the buffer
exists, writes the column arrays of `transform.model_matrix()` into it
via `queue.write_buffer`.  The receiver is `&self`, so no field of the
model itself changes; the returned value carries the new buffer
contents. -/
def Model.update_transform (m : Model) (transform : ModelTransform) : Model :=
  match m.model_buffer with
  | some _ => { m with model_buffer := some transform.model_matrix.toColsArray2d }
  | none => m

/-! ## `src/rendering/light.rs` -/

/-- Embeds `LightData`: the GPU-visible per-light record (`light_type` is the
`u32` discriminant, 0 = directional, 1 = point). -/
structure LightData where
  position : Vec3
  light_type : ℕ
  color : Vec3
  intensity : ℚ
  range : ℚ
  direction : Vec3
deriving DecidableEq, Repr

/-- The zero-filled record the padding loop of `LightManager::update`
pushes. -/
def LightData.zero : LightData := ⟨Vec3.zero, 0, Vec3.zero, 0, 0, Vec3.zero⟩

/-- Embeds `LightManager`: stored lights are modelled by the `LightData` their
`get_light_data()` returns (the only way `update` observes them);
`light_buffer` / `light_count_buffer`, when allocated, are modelled by
the decoded contents they currently hold. -/
structure LightManager where
  lights : List LightData
  light_buffer : Option (List LightData)
  light_bind_group : Option Unit
  light_bind_group_layout : Option Unit
  light_count_buffer : Option ℕ
  max_lights : ℕ
deriving DecidableEq

/-- Embeds `LightManager::new(max_lights)`. -/
def LightManager.new (max_lights : ℕ) : LightManager :=
  ⟨[], none, none, none, none, max_lights⟩

/-- Embeds `LightManager::add_light`: pushes only while strictly below
`max_lights`, otherwise drops the light. -/
def LightManager.add_light (lm : LightManager) (l : LightData) : LightManager :=
  if lm.lights.length < lm.max_lights then { lm with lights := lm.lights ++ [l] } else lm

/-- Embeds `LightManager::light_count`. -/
def LightManager.light_count (lm : LightManager) : ℕ := lm.lights.length

/-- Embeds `LightManager::initialize`: allocates the light buffer sized
`max_lights` records (a fresh `wgpu` buffer is zero-initialised), the
count buffer seeded with the current light count, and the bind
group/layout. -/
def LightManager.init_buffers (lm : LightManager) : LightManager :=
  { lm with
    light_buffer := some (List.replicate lm.max_lights LightData.zero)
    light_count_buffer := some lm.lights.length
    light_bind_group := some ()
    light_bind_group_layout := some () }

/-- Embeds `LightManager::update(&self, queue)`: when the light buffer exists,
writes the real lights followed by zero padding up to `max_lights`
records, then (when the count buffer exists) writes the current light
count.  The returned value carries the new buffer contents. -/
def LightManager.update (lm : LightManager) : LightManager :=
  match lm.light_buffer with
  | none => lm
  | some _ =>
    let light_data := lm.lights ++ List.replicate (lm.max_lights - lm.lights.length) LightData.zero
    { lm with
      light_buffer := some light_data
      light_count_buffer :=
        match lm.light_count_buffer with
        | some _ => some lm.lights.length
        | none => none }

/-! ## `src/rendering/mesh.rs` -/

/-- Embeds `Vertex`: position, normal, texture coordinates and colour. -/
structure Vertex where
  position : Vec3
  normal : Vec3
  tex_coords : Vec2
  color : Vec4
deriving DecidableEq, Repr

/-- Embeds `Mesh`: the decoded contents of the vertex and index buffers plus the
index count, as uploaded by `Mesh::new`. -/
structure Mesh where
  vertices : List Vertex
  indices : List ℕ
  num_indices : ℕ
  name : String
deriving DecidableEq, Repr

/-- Embeds `Mesh::new(device, name, vertices, indices)`. -/
def Mesh.new (name : String) (vertices : List Vertex) (indices : List ℕ) : Mesh :=
  ⟨vertices, indices, indices.length, name⟩

/-- Embeds `Mesh::create_quad(device, width, height)`: four corner vertices
(bottom-left, bottom-right, top-right, top-left) and two triangles. -/
def Mesh.create_quad (width height : ℚ) : Mesh :=
  let half_width := width / 2
  let half_height := height / 2
  let vertices : List Vertex :=
    [⟨⟨-half_width, -half_height, 0⟩, ⟨0, 0, 1⟩, ⟨0, 1⟩, ⟨1, 1, 1, 1⟩⟩,
     ⟨⟨half_width, -half_height, 0⟩, ⟨0, 0, 1⟩, ⟨1, 1⟩, ⟨1, 1, 1, 1⟩⟩,
     ⟨⟨half_width, half_height, 0⟩, ⟨0, 0, 1⟩, ⟨1, 0⟩, ⟨1, 1, 1, 1⟩⟩,
     ⟨⟨-half_width, half_height, 0⟩, ⟨0, 0, 1⟩, ⟨0, 0⟩, ⟨1, 1, 1, 1⟩⟩]
  let indices : List ℕ := [0, 1, 2, 2, 3, 0]
  Mesh.new "Quad" vertices indices

/-! ## `src/rendering/camera.rs` -/

/-- Embeds `OrthographicCamera`. -/
structure OrthographicCamera where
  position : Vec2
  zoom : ℚ
  rotation : ℚ
  aspect_ratio : ℚ
  near : ℚ
  far : ℚ
  left : ℚ
  right : ℚ
  bottom : ℚ
  top : ℚ
deriving DecidableEq, Repr

/-- Embeds `OrthographicCamera::new(width, height, near, far)`. -/
def OrthographicCamera.new (width height near far : ℚ) : OrthographicCamera :=
  let aspect_ratio := width / height
  let zoom : ℚ := 1
  let half_height := height / 2
  let half_width := width / 2
  ⟨Vec2.zero, zoom, 0, aspect_ratio, near, far,
   -half_width, half_width, -half_height, half_height⟩

/-- Embeds `OrthographicCamera::set_zoom`: clamps with `zoom.max(0.1)`. -/
def OrthographicCamera.set_zoom (c : OrthographicCamera) (zoom : ℚ) : OrthographicCamera :=
  { c with zoom := max zoom (1 / 10) }

/-- Embeds `OrthographicCamera::resize(width, height)`: recomputes the stored
bounds as the half extents divided by the current zoom. -/
def OrthographicCamera.resize (c : OrthographicCamera) (width height : ℚ) : OrthographicCamera :=
  let half_height := height / (2 * c.zoom)
  let half_width := width / (2 * c.zoom)
  { c with
    aspect_ratio := width / height
    left := -half_width
    right := half_width
    bottom := -half_height
    top := half_height }

/-- Embeds `OrthographicCamera::projection_matrix`: divides each stored bound
by the zoom and builds `Mat4::orthographic_rh`. -/
def OrthographicCamera.projection_matrix (c : OrthographicCamera) : Mat4 :=
  Mat4.orthographicRh (c.left / c.zoom) (c.right / c.zoom)
    (c.bottom / c.zoom) (c.top / c.zoom) c.near c.far

/-! ## `src/rendering/renderer.rs` -/

/-- The outward-visible side effects `Renderer::resize` produces. -/
inductive RendererEffect where
  | configureSurface (width height : ℕ)
  | logInfo
  | logWarn
deriving DecidableEq, Repr

/-- The mutable state of `Renderer` that `resize` touches: the stored
size and the surface configuration's dimensions. -/
structure RendererState where
  size : ℕ × ℕ
  config_width : ℕ
  config_height : ℕ
deriving DecidableEq, Repr

/-- Embeds `Renderer::resize(width, height)`: with both dimensions positive it
stores the new size, updates the surface configuration and reconfigures
the surface (logging at info level); otherwise it only logs a
warning. -/
def RendererState.resize (r : RendererState) (width height : ℕ) :
    RendererState × List RendererEffect :=
  if 0 < width ∧ 0 < height then
    ({ size := (width, height), config_width := width, config_height := height },
     [RendererEffect.configureSurface width height, RendererEffect.logInfo])
  else
    (r, [RendererEffect.logWarn])

/-! ## `src/ecs` -/

/-- Embeds `Transform2DComponent`. -/
structure Transform2DComponent where
  position : Vec2
  rotation : ℚ
  scale : Vec2
deriving DecidableEq, Repr

/-- Embeds `Transform3DComponent`. -/
structure Transform3DComponent where
  position : Vec3
  rotation : Quat
  scale : Vec3
deriving DecidableEq, Repr

/-- Embeds `PhysicsComponent`. -/
structure PhysicsComponent where
  velocity : Vec2
  angular_velocity : ℚ
  mass : ℚ
  use_gravity : Bool
deriving DecidableEq, Repr

/-- Embeds `RenderableComponent`: a shared model and a visibility flag. -/
structure RenderableComponent where
  model : Model
  visible : Bool
deriving DecidableEq

/-- One entity of the `hecs::World`: its internal id and the components
the settled claims involve (an absent component is `none`). -/
structure EntityRecord where
  id : ℕ
  transform2d : Option Transform2DComponent
  transform3d : Option Transform3DComponent
  physics : Option PhysicsComponent
  renderable : Option RenderableComponent
deriving DecidableEq

/-- The `hecs::World`: its live entities. -/
abbrev World := List EntityRecord

/-- Embeds `EntityHandle`: wraps the `Uuid` (modelled as a natural). -/
structure EntityHandle where
  uuid : ℕ
deriving DecidableEq, Repr

/-- Embeds `EcsManager`: the world plus the `Uuid → Entity` map. -/
structure EcsManager where
  world : World
  entity_map : List (ℕ × ℕ)
deriving DecidableEq

/-- Embeds `EcsManager::destroy_entity(handle)`: removes the map entry if the
uuid is known and despawns the mapped entity (`despawn(..).is_ok()`
succeeds exactly when the entity is live in the world); an unknown uuid
returns `false` and changes nothing. -/
def EcsManager.destroy_entity (m : EcsManager) (handle : EntityHandle) :
    EcsManager × Bool :=
  match (m.entity_map.find? (fun p => p.1 = handle.uuid)) with
  | some p =>
    let ok := (m.world.filter (fun e => e.id = p.2)).length ≠ 0
    ({ world := m.world.filter (fun e => e.id ≠ p.2)
       entity_map := m.entity_map.filter (fun q => q.1 ≠ handle.uuid) }, ok)
  | none => (m, false)

/-! ## `src/ecs/system.rs`

`rendering_system` builds a `Quat::from_rotation_z(rotation)`, which
needs the sine and cosine of half the angle; the systems therefore take
the two transcendental functions `s`/`c` as parameters. -/

/-- Embeds `glam::Quat::from_rotation_z(angle)` given sine and cosine. -/
def Quat.from_rotation_z (s c : ℚ → ℚ) (angle : ℚ) : Quat :=
  ⟨0, 0, s (angle / 2), c (angle / 2)⟩

/-- A GPU buffer write the ECS tick issues: a
`Model::update_transform(queue, t)` call on a renderable's model. -/
inductive GpuWrite where
  | updateTransform (t : ModelTransform)
deriving DecidableEq

/-- Embeds `transform_system(world, delta_time)`: every entity holding both a
`Transform2DComponent` and a `PhysicsComponent` integrates
`position += velocity * dt` and `rotation += angular_velocity * dt`. -/
def transform_system (world : World) (delta_time : ℚ) : World :=
  world.map fun e =>
    match e.transform2d, e.physics with
    | some t, some p =>
      { e with
        transform2d := some
          { t with
            position := t.position.add (p.velocity.smul delta_time)
            rotation := t.rotation + p.angular_velocity * delta_time } }
    | _, _ => e

/-- Embeds `physics_system(world, delta_time)`: every `PhysicsComponent` with
`use_gravity` set accumulates `velocity += (0, -9.81) * dt`. -/
def physics_system (world : World) (delta_time : ℚ) : World :=
  let gravity : Vec2 := ⟨0, -981 / 100⟩
  world.map fun e =>
    match e.physics with
    | some p =>
      if p.use_gravity then
        { e with physics := some { p with velocity := p.velocity.add (gravity.smul delta_time) } }
      else e
    | none => e

/-- Embeds `get_render_queue()`: the placeholder lookup — unconditionally
`None`. -/
def get_render_queue : Option Unit := none

/-- Body of `rendering_system`'s first loop (2D entities): a visible
renderable's 2D transform is embedded into the `Z = 0` plane (rotation
becomes a Z-axis quaternion) and, only if `get_render_queue()` yields a
queue, the model's `update_transform` is called. -/
def rendering_system_step2d (s c : ℚ → ℚ) (e : EntityRecord) : List GpuWrite :=
  match e.transform2d, e.renderable with
  | some t, some r =>
    if r.visible then
      let transform_3d : ModelTransform :=
        { position := ⟨t.position.x, t.position.y, 0⟩
          rotation := Quat.from_rotation_z s c t.rotation
          scale := ⟨t.scale.x, t.scale.y, 1⟩ }
      match get_render_queue with
      | some _ => [GpuWrite.updateTransform transform_3d]
      | none => []
    else []
  | _, _ => []

/-- Body of `rendering_system`'s second loop (3D entities). -/
def rendering_system_step3d (e : EntityRecord) : List GpuWrite :=
  match e.transform3d, e.renderable with
  | some t, some r =>
    if r.visible then
      let transform_3d : ModelTransform :=
        { position := t.position, rotation := t.rotation, scale := t.scale }
      match get_render_queue with
      | some _ => [GpuWrite.updateTransform transform_3d]
      | none => []
    else []
  | _, _ => []

/-- Embeds `rendering_system(world)`: runs the 2D loop, then the 3D loop.  The
world is not mutated (both loops only read); the result is the list of
GPU writes issued. -/
def rendering_system (s c : ℚ → ℚ) (world : World) : List GpuWrite :=
  world.foldr (fun e acc => rendering_system_step2d s c e ++ acc) [] ++
    world.foldr (fun e acc => rendering_system_step3d e ++ acc) []

/-- Embeds `EcsManager::run_systems(delta_time)`: runs the transform system,
then the physics system, then the rendering system, returning the new
world and the GPU writes the tick issued. -/
def EcsManager.run_systems (s c : ℚ → ℚ) (m : EcsManager) (delta_time : ℚ) :
    EcsManager × List GpuWrite :=
  let w1 := transform_system m.world delta_time
  let w2 := physics_system w1 delta_time
  let writes := rendering_system s c w2
  ({ m with world := w2 }, writes)

/-! ## Claim C6 -/

/-- C6: for every `ModelTransform`, `model_matrix()` equals the matrix
product `translate(position) * rotate(rotation) * scale(scale)`, and on
every point the composite applies the scale first, then the rotation,
then the translation. -/
theorem model_matrix_is_translate_rotate_scale (t : ModelTransform) :
    t.model_matrix =
      ((Mat4.fromTranslation t.position).mul (Mat4.fromQuat t.rotation)).mul
        (Mat4.fromScale t.scale) ∧
    ∀ v : Vec3, t.model_matrix.transformPoint3 v =
      (Mat4.fromTranslation t.position).transformPoint3
        ((Mat4.fromQuat t.rotation).transformPoint3
          ((Mat4.fromScale t.scale).transformPoint3 v)) := by
  obtain ⟨⟨px, py, pz⟩, ⟨qx, qy, qz, qw⟩, ⟨sx, sy, sz⟩⟩ := t
  refine ⟨rfl, ?_⟩
  rintro ⟨vx, vy, vz⟩
  simp only [ModelTransform.model_matrix, Mat4.mul, Mat4.mulVec4, Mat4.transformPoint3,
    Mat4.fromTranslation, Mat4.fromQuat, Mat4.fromScale, Vec4.addV, Vec4.smulV,
    Vec3.mk.injEq]
  refine ⟨by ring, by ring, by ring⟩

/-! ## Claim C2 -/

/-- Transform a model is constructed with. -/
def transformAtBuild : ModelTransform := ModelTransform.default

/-- A different transform later passed to `update_transform`. -/
def transformAtUpdate : ModelTransform := ModelTransform.with_position ⟨1, 2, 3⟩

/-- C2: after `update_transform(queue, T1)` on a model built with `T0`,
the GPU uniform buffer does decode to the column-major matrix
`T1.model_matrix()`, but the CPU-side `transform` field still holds
`T0 ≠ T1`: the method takes `&self` and never writes the field, so the
claimed CPU/GPU synchronization fails. -/
theorem update_transform_leaves_cpu_transform_stale :
    ((Model.new_with_device transformAtBuild).update_transform transformAtUpdate).model_buffer
        = some transformAtUpdate.model_matrix.toColsArray2d ∧
    ((Model.new_with_device transformAtBuild).update_transform transformAtUpdate).transform
        = transformAtBuild ∧
    transformAtBuild ≠ transformAtUpdate := by
  refine ⟨rfl, rfl, ?_⟩
  simp only [transformAtBuild, transformAtUpdate, ModelTransform.default,
    ModelTransform.with_position, ModelTransform.mk.injEq, Vec3.mk.injEq, Vec3.zero]
  norm_num

/-! ## Claim C4 -/

/-- The claim's reading of "UV origin at the bottom-left corner": on a
quad of extents `w × h` centred at the origin, a vertex's `v` texture
coordinate is 0 on the bottom edge and grows upward (`u` from the
left). -/
def uvOriginBottomLeft (m : Mesh) (width height : ℚ) : Prop :=
  ∀ v ∈ m.vertices,
    v.tex_coords = ⟨(v.position.x + width / 2) / width,
                    (v.position.y + height / 2) / height⟩

/-- Signed doubled area (z component of the 2D cross product) of a
triangle given in the XY plane; positive means counter-clockwise. -/
def cross2z (a b c : Vec3) : ℚ :=
  (b.x - a.x) * (c.y - a.y) - (b.y - a.y) * (c.x - a.x)

/-- C4 counterexample: for `create_quad(2, 2)` the bottom-left corner
vertex `(-1, -1, 0)` carries UV `(0, 1)`, not `(0, 0)`: the UV origin is
not at the bottom-left corner of the quad. -/
theorem create_quad_uv_origin_not_bottom_left :
    ¬ uvOriginBottomLeft (Mesh.create_quad 2 2) 2 2 := by
  intro hcl
  have h0 := hcl ⟨⟨-(2 / 2 : ℚ), -(2 / 2 : ℚ), 0⟩, ⟨0, 0, 1⟩, ⟨0, 1⟩, ⟨1, 1, 1, 1⟩⟩
    (by simp [Mesh.create_quad, Mesh.new])
  simp only [Vec2.mk.injEq] at h0
  norm_num at h0

/-- C4 (amended): for positive `w`, `h`, `create_quad` yields exactly 4
vertices and the 6 indices `[0,1,2,2,3,0]`; the positions are the four
corners `(±w/2, ±h/2, 0)`, every normal is `(0,0,1)`, both index
triangles are counter-clockwise — but the texture coordinates have
their UV origin at the TOP-left corner (`v = 0` on the top edge,
growing downward), not the bottom-left. -/
theorem create_quad_geometry (w h : ℚ) (hw : 0 < w) (hh : 0 < h) :
    (Mesh.create_quad w h).vertices.length = 4 ∧
    (Mesh.create_quad w h).indices = [0, 1, 2, 2, 3, 0] ∧
    (Mesh.create_quad w h).num_indices = 6 ∧
    (Mesh.create_quad w h).vertices.map Vertex.position =
      [⟨-(w / 2), -(h / 2), 0⟩, ⟨w / 2, -(h / 2), 0⟩,
       ⟨w / 2, h / 2, 0⟩, ⟨-(w / 2), h / 2, 0⟩] ∧
    (∀ v ∈ (Mesh.create_quad w h).vertices, v.normal = ⟨0, 0, 1⟩) ∧
    0 < cross2z ⟨-(w / 2), -(h / 2), 0⟩ ⟨w / 2, -(h / 2), 0⟩ ⟨w / 2, h / 2, 0⟩ ∧
    0 < cross2z ⟨w / 2, h / 2, 0⟩ ⟨-(w / 2), h / 2, 0⟩ ⟨-(w / 2), -(h / 2), 0⟩ ∧
    (∀ v ∈ (Mesh.create_quad w h).vertices,
      v.tex_coords = ⟨(v.position.x + w / 2) / w, (h / 2 - v.position.y) / h⟩) := by
  have hw' : w ≠ 0 := ne_of_gt hw
  have hh' : h ≠ 0 := ne_of_gt hh
  have hcross : (0 : ℚ) < w * h := mul_pos hw hh
  refine ⟨rfl, rfl, rfl, rfl, ?_, ?_, ?_, ?_⟩
  · intro v hv
    simp only [Mesh.create_quad, Mesh.new, List.mem_cons, List.not_mem_nil, or_false] at hv
    rcases hv with rfl | rfl | rfl | rfl <;> rfl
  · show (0 : ℚ) < (w / 2 - -(w / 2)) * (h / 2 - -(h / 2)) - (-(h / 2) - -(h / 2)) * (w / 2 - -(w / 2))
    calc (0 : ℚ) < w * h := hcross
    _ = (w / 2 - -(w / 2)) * (h / 2 - -(h / 2)) - (-(h / 2) - -(h / 2)) * (w / 2 - -(w / 2)) := by ring
  · show (0 : ℚ) < (-(w / 2) - w / 2) * (-(h / 2) - h / 2) - (h / 2 - h / 2) * (-(w / 2) - w / 2)
    calc (0 : ℚ) < w * h := hcross
    _ = (-(w / 2) - w / 2) * (-(h / 2) - h / 2) - (h / 2 - h / 2) * (-(w / 2) - w / 2) := by ring
  · intro v hv
    simp only [Mesh.create_quad, Mesh.new, List.mem_cons, List.not_mem_nil, or_false] at hv
    rcases hv with rfl | rfl | rfl | rfl <;>
      · simp only [Vec2.mk.injEq]
        constructor <;> field_simp

/-- Witness for the amended C4 theorem at `w = h = 2`. -/
theorem create_quad_geometry_witness :
    (0 : ℚ) < 2 ∧ (Mesh.create_quad 2 2).indices = [0, 1, 2, 2, 3, 0] := by
  exact ⟨by norm_num, (create_quad_geometry 2 2 (by norm_num) (by norm_num)).2.1⟩

/-! ## Claim C5 -/

/-- Projection the claim predicts after `resize(w, h)`: an orthographic
projection whose bounds are the half extents `±w/2`, `±h/2` scaled by
`1/zoom` (zoom applied exactly once overall). -/
def claimedResizeProjection (c : OrthographicCamera) (w h : ℚ) : Mat4 :=
  Mat4.orthographicRh (-(w / 2) / c.zoom) ((w / 2) / c.zoom)
    (-(h / 2) / c.zoom) ((h / 2) / c.zoom) c.near c.far

/-- A camera whose zoom was set to 2 before resizing. -/
def zoomedCamera : OrthographicCamera := (OrthographicCamera.new 8 4 0 10).set_zoom 2

/-- C5 counterexample: with zoom 2, `resize(8, 4)` followed by
`projection_matrix()` yields bounds `±1`, `±1/2` — the half extents
divided by zoom twice — not the claimed `±2`, `±1`. -/
theorem resize_projection_counterexample :
    (zoomedCamera.resize 8 4).projection_matrix ≠ claimedResizeProjection zoomedCamera 8 4 := by
  have hz : zoomedCamera.zoom = 2 := by
    simp only [zoomedCamera, OrthographicCamera.set_zoom, OrthographicCamera.new]
    norm_num [max_def]
  intro heq
  have hx : ((zoomedCamera.resize 8 4).projection_matrix).xAxis.x
      = (claimedResizeProjection zoomedCamera 8 4).xAxis.x := by rw [heq]
  simp only [OrthographicCamera.resize, OrthographicCamera.projection_matrix,
    claimedResizeProjection, Mat4.orthographicRh, hz] at hx
  norm_num at hx

/-- C5 (amended): `resize(w, h)` preserves the current zoom, but bakes
`1/zoom` into the stored bounds, and `projection_matrix()` divides by
zoom again: the resulting projection bounds are the half extents
`±w/2`, `±h/2` divided by `zoom²`, not by zoom once. -/
theorem resize_projection_divides_by_zoom_squared (c : OrthographicCamera) (w h : ℚ) :
    (c.resize w h).zoom = c.zoom ∧
    (c.resize w h).near = c.near ∧
    (c.resize w h).far = c.far ∧
    (c.resize w h).projection_matrix =
      Mat4.orthographicRh (-(w / 2) / c.zoom ^ 2) ((w / 2) / c.zoom ^ 2)
        (-(h / 2) / c.zoom ^ 2) ((h / 2) / c.zoom ^ 2) c.near c.far := by
  refine ⟨rfl, rfl, rfl, ?_⟩
  have hl : -(w / (2 * c.zoom)) / c.zoom = -(w / 2) / c.zoom ^ 2 := by ring
  have hr : w / (2 * c.zoom) / c.zoom = (w / 2) / c.zoom ^ 2 := by ring
  have hb : -(h / (2 * c.zoom)) / c.zoom = -(h / 2) / c.zoom ^ 2 := by ring
  have ht : h / (2 * c.zoom) / c.zoom = (h / 2) / c.zoom ^ 2 := by ring
  show Mat4.orthographicRh (-(w / (2 * c.zoom)) / c.zoom) (w / (2 * c.zoom) / c.zoom)
      (-(h / (2 * c.zoom)) / c.zoom) (h / (2 * c.zoom) / c.zoom) c.near c.far = _
  rw [hl, hr, hb, ht]

/-! ## Claims C7 and C3: LightManager invariants -/

/-- An `add_light` call touches only the `lights` list: capacity and the GPU
buffers are untouched. -/
theorem add_light_preserves_rest (lm : LightManager) (l : LightData) :
    (lm.add_light l).max_lights = lm.max_lights ∧
    (lm.add_light l).light_buffer = lm.light_buffer ∧
    (lm.add_light l).light_count_buffer = lm.light_count_buffer := by
  unfold LightManager.add_light
  split <;> exact ⟨rfl, rfl, rfl⟩

/-- Folding `add_light` over any sequence touches only the `lights`
list. -/
theorem foldl_add_light_preserves_rest (seq : List LightData) (lm : LightManager) :
    (List.foldl LightManager.add_light lm seq).max_lights = lm.max_lights ∧
    (List.foldl LightManager.add_light lm seq).light_buffer = lm.light_buffer ∧
    (List.foldl LightManager.add_light lm seq).light_count_buffer = lm.light_count_buffer := by
  induction seq generalizing lm with
  | nil => exact ⟨rfl, rfl, rfl⟩
  | cons a as ih =>
    have h1 := add_light_preserves_rest lm a
    have h2 := ih (lm.add_light a)
    exact ⟨h2.1.trans h1.1, h2.2.1.trans h1.2.1, h2.2.2.trans h1.2.2⟩

/-- An `add_light` call keeps the stored-light count within capacity. -/
theorem add_light_len_le (lm : LightManager) (l : LightData)
    (h : lm.lights.length ≤ lm.max_lights) :
    (lm.add_light l).lights.length ≤ (lm.add_light l).max_lights := by
  unfold LightManager.add_light
  split
  · rename_i hlt
    simp only [List.length_append, List.length_cons, List.length_nil]
    omega
  · exact h

/-- Folding `add_light` keeps the stored-light count within capacity. -/
theorem foldl_add_light_len_le (seq : List LightData) (lm : LightManager)
    (h : lm.lights.length ≤ lm.max_lights) :
    (List.foldl LightManager.add_light lm seq).lights.length ≤
      (List.foldl LightManager.add_light lm seq).max_lights := by
  induction seq generalizing lm with
  | nil => exact h
  | cons a as ih => exact ih (lm.add_light a) (add_light_len_le lm a h)

/-- C7: for every capacity and every sequence of `add_light` calls
starting from `LightManager::new`, the stored light list never grows
beyond `max_lights`; and an `add_light` on any manager whose list
already holds `max_lights` lights is silently dropped, leaving the
manager unchanged. -/
theorem add_light_capacity_cap (maxL : ℕ) (seq : List LightData)
    (s : LightManager) (l : LightData) (hs : s.lights.length = s.max_lights) :
    (List.foldl LightManager.add_light (LightManager.new maxL) seq).lights.length ≤ maxL ∧
    s.add_light l = s := by
  constructor
  · have h0 : (LightManager.new maxL).lights.length ≤ (LightManager.new maxL).max_lights := by
      simp [LightManager.new]
    have h := foldl_add_light_len_le seq (LightManager.new maxL) h0
    have hm := (foldl_add_light_preserves_rest seq (LightManager.new maxL)).1
    rw [hm] at h
    exact h
  · unfold LightManager.add_light
    rw [hs]
    simp

/-- A manager filled to its capacity of one light. -/
def fullLightManager : LightManager := ⟨[LightData.zero], none, none, none, none, 1⟩

/-- Witness for C7: capacity 1, two adds of the zero light; a full
manager drops a further light. -/
theorem add_light_capacity_cap_witness :
    fullLightManager.lights.length = fullLightManager.max_lights ∧
    ((List.foldl LightManager.add_light (LightManager.new 1)
        [LightData.zero, LightData.zero]).lights.length ≤ 1 ∧
      fullLightManager.add_light LightData.zero = fullLightManager) :=
  ⟨rfl, add_light_capacity_cap 1 [LightData.zero, LightData.zero]
    fullLightManager LightData.zero rfl⟩

/-- Behaviour of `update` on any manager whose two buffers are present
and whose stored lights fit the capacity. -/
theorem update_spec (lm : LightManager) (b : List LightData) (n : ℕ)
    (hb : lm.light_buffer = some b) (hn : lm.light_count_buffer = some n)
    (hlen : lm.lights.length ≤ lm.max_lights) :
    lm.update.light_buffer =
      some (lm.lights ++ List.replicate (lm.max_lights - lm.lights.length) LightData.zero) ∧
    (lm.update.light_buffer.getD []).length = lm.max_lights ∧
    lm.update.light_count_buffer = some lm.lights.length := by
  unfold LightManager.update
  rw [hb, hn]
  refine ⟨rfl, ?_, rfl⟩
  simp only [Option.getD_some, List.length_append, List.length_replicate]
  omega

/-- A `LightManager` reachable in the source: created with capacity
`maxL`, some lights added, `initialize` called, more lights added. -/
def reachableLightManager (maxL : ℕ) (seq1 seq2 : List LightData) : LightManager :=
  List.foldl LightManager.add_light
    ((List.foldl LightManager.add_light (LightManager.new maxL) seq1).init_buffers) seq2

/-- C3: on every initialized manager, `update` writes exactly
`max_lights` records to the light buffer — the added lights in order
followed by zero-filled padding — and writes the light-count buffer in
the same call with the true number of stored lights, which never
exceeds `max_lights`. -/
theorem lightmanager_update_rewrites_both_buffers (maxL : ℕ) (seq1 seq2 : List LightData) :
    (reachableLightManager maxL seq1 seq2).update.light_buffer =
      some ((reachableLightManager maxL seq1 seq2).lights ++
        List.replicate (maxL - (reachableLightManager maxL seq1 seq2).lights.length)
          LightData.zero) ∧
    ((reachableLightManager maxL seq1 seq2).update.light_buffer.getD []).length = maxL ∧
    (reachableLightManager maxL seq1 seq2).update.light_count_buffer =
      some (reachableLightManager maxL seq1 seq2).lights.length ∧
    (reachableLightManager maxL seq1 seq2).lights.length ≤ maxL := by
  have hrest2 := foldl_add_light_preserves_rest seq2
    ((List.foldl LightManager.add_light (LightManager.new maxL) seq1).init_buffers)
  have hmax1 : (List.foldl LightManager.add_light (LightManager.new maxL) seq1).max_lights
      = maxL :=
    (foldl_add_light_preserves_rest seq1 (LightManager.new maxL)).1
  have hmax : (reachableLightManager maxL seq1 seq2).max_lights = maxL := by
    rw [reachableLightManager, hrest2.1]
    exact hmax1
  have hb : (reachableLightManager maxL seq1 seq2).light_buffer
      = some (List.replicate
          (List.foldl LightManager.add_light (LightManager.new maxL) seq1).max_lights
          LightData.zero) := by
    rw [reachableLightManager, hrest2.2.1]
    rfl
  have hn : (reachableLightManager maxL seq1 seq2).light_count_buffer
      = some (List.foldl LightManager.add_light (LightManager.new maxL) seq1).lights.length := by
    rw [reachableLightManager, hrest2.2.2]
    rfl
  have hlen : (reachableLightManager maxL seq1 seq2).lights.length
      ≤ (reachableLightManager maxL seq1 seq2).max_lights := by
    rw [reachableLightManager]
    exact foldl_add_light_len_le seq2 _
      (foldl_add_light_len_le seq1 (LightManager.new maxL) (by simp [LightManager.new]))
  have hspec := update_spec _ _ _ hb hn hlen
  refine ⟨?_, ?_, hspec.2.2, ?_⟩
  · rw [hspec.1, hmax]
  · rw [hspec.2.1, hmax]
  · exact le_of_le_of_eq hlen hmax

/-! ## Claim C8 -/

/-- C8: `Renderer::resize` with a zero dimension is a non-fatal no-op
that only logs a warning, retaining the stored size and surface
configuration; with both dimensions nonzero it stores the new size,
updates the configuration and reconfigures the surface. -/
theorem renderer_resize_behaviour (r : RendererState) (w h : ℕ) :
    (w = 0 ∨ h = 0 → r.resize w h = (r, [RendererEffect.logWarn])) ∧
    (w ≠ 0 → h ≠ 0 →
      r.resize w h =
        ({ size := (w, h), config_width := w, config_height := h },
         [RendererEffect.configureSurface w h, RendererEffect.logInfo])) := by
  constructor
  · rintro (rfl | rfl) <;> simp [RendererState.resize]
  · intro hw hh
    unfold RendererState.resize
    rw [if_pos ⟨Nat.pos_of_ne_zero hw, Nat.pos_of_ne_zero hh⟩]

/-- A renderer state previously configured at 640×480. -/
def rendererAt640 : RendererState := ⟨(640, 480), 640, 480⟩

/-- Witness for C8: a zero-width resize leaves the 640×480 state
untouched, and an 800×600 resize reconfigures to 800×600. -/
theorem renderer_resize_behaviour_witness :
    rendererAt640.resize 0 480 = (rendererAt640, [RendererEffect.logWarn]) ∧
    rendererAt640.resize 800 600 =
      ({ size := (800, 600), config_width := 800, config_height := 600 },
       [RendererEffect.configureSurface 800 600, RendererEffect.logInfo]) :=
  ⟨(renderer_resize_behaviour rendererAt640 0 480).1 (Or.inl rfl),
   (renderer_resize_behaviour rendererAt640 800 600).2 (by decide) (by decide)⟩

/-! ## Claim C9 -/

/-- C9: `destroy_entity` on a handle unknown to the manager returns
`false` and leaves the manager (entity table and world) unchanged; and
for every manager, a second `destroy_entity` with the same handle
returns `false`. -/
theorem destroy_entity_unknown_returns_false (m : EcsManager) (handle : EntityHandle)
    (hu : handle.uuid ∉ m.entity_map.map Prod.fst) :
    m.destroy_entity handle = (m, false) ∧
    ∀ m' : EcsManager, ((m'.destroy_entity handle).1.destroy_entity handle).2 = false := by
  constructor
  · have hfind : m.entity_map.find? (fun p => p.1 = handle.uuid) = none := by
      rw [List.find?_eq_none]
      intro p hp
      simp only [decide_eq_true_eq]
      intro hpe
      exact hu (List.mem_map.mpr ⟨p, hp, hpe⟩)
    simp [EcsManager.destroy_entity, hfind]
  · intro m'
    rcases hfind1 : m'.entity_map.find? (fun p => p.1 = handle.uuid) with _ | p
    · simp [EcsManager.destroy_entity, hfind1]
    · have hfind2 : (m'.entity_map.filter (fun q => q.1 ≠ handle.uuid)).find?
          (fun p => p.1 = handle.uuid) = none := by
        rw [List.find?_eq_none]
        intro q hq
        have hne := (List.mem_filter.mp hq).2
        simpa using hne
      simp only [EcsManager.destroy_entity, hfind1, hfind2]

/-- A manager holding one entity mapped from uuid 10. -/
def managerWithOne : EcsManager := ⟨[⟨1, none, none, none, none⟩], [(10, 1)]⟩

/-- Witness for C9: uuid 99 is unknown to the manager, so destroying it
returns `false` and changes nothing; destroying the known uuid 10 twice
returns `false` the second time. -/
theorem destroy_entity_unknown_returns_false_witness :
    managerWithOne.destroy_entity ⟨99⟩ = (managerWithOne, false) ∧
    ((managerWithOne.destroy_entity ⟨10⟩).1.destroy_entity ⟨10⟩).2 = false := by
  have h := destroy_entity_unknown_returns_false managerWithOne ⟨99⟩ (by decide)
  exact ⟨h.1, h.2 managerWithOne⟩

/-! ## Claim C10 -/

/-- The 2D rendering loop issues no write for any entity, because
`get_render_queue()` is `None`. -/
theorem rendering_system_step2d_nil (s c : ℚ → ℚ) (e : EntityRecord) :
    rendering_system_step2d s c e = [] := by
  unfold rendering_system_step2d
  rcases e.transform2d with _ | t <;> rcases e.renderable with _ | r <;>
    simp [get_render_queue]

/-- The 3D rendering loop issues no write for any entity. -/
theorem rendering_system_step3d_nil (e : EntityRecord) :
    rendering_system_step3d e = [] := by
  unfold rendering_system_step3d
  rcases e.transform3d with _ | t <;> rcases e.renderable with _ | r <;>
    simp [get_render_queue]

/-- A fold of pointwise-empty write lists is empty. -/
theorem foldr_append_nil {α : Type} (f : α → List GpuWrite) (hf : ∀ a, f a = [])
    (l : List α) : l.foldr (fun a acc => f a ++ acc) [] = [] := by
  induction l with
  | nil => rfl
  | cons a as ih =>
    rw [List.foldr_cons, hf, ih]
    rfl

/-- The `transform_system` pass preserves every component other than
`Transform2DComponent`. -/
theorem transform_system_touches_only_transform2d (w : World) (dt : ℚ) :
    (transform_system w dt).map EntityRecord.renderable = w.map EntityRecord.renderable ∧
    (transform_system w dt).map EntityRecord.transform3d = w.map EntityRecord.transform3d ∧
    (transform_system w dt).map EntityRecord.physics = w.map EntityRecord.physics ∧
    (transform_system w dt).map EntityRecord.id = w.map EntityRecord.id := by
  unfold transform_system
  refine ⟨?_, ?_, ?_, ?_⟩ <;>
    · rw [List.map_map]
      refine List.map_congr_left ?_
      intro e _
      rcases e with ⟨i, t2, t3, ph, re⟩
      rcases t2 with _ | t <;> rcases ph with _ | p <;> rfl

/-- The `physics_system` pass preserves every component other than
`PhysicsComponent`. -/
theorem physics_system_touches_only_physics (w : World) (dt : ℚ) :
    (physics_system w dt).map EntityRecord.renderable = w.map EntityRecord.renderable ∧
    (physics_system w dt).map EntityRecord.transform3d = w.map EntityRecord.transform3d ∧
    (physics_system w dt).map EntityRecord.transform2d = w.map EntityRecord.transform2d ∧
    (physics_system w dt).map EntityRecord.id = w.map EntityRecord.id := by
  unfold physics_system
  refine ⟨?_, ?_, ?_, ?_⟩ <;>
    · rw [List.map_map]
      refine List.map_congr_left ?_
      intro e _
      rcases e with ⟨i, t2, t3, ph, re⟩
      rcases ph with _ | p
      · rfl
      · rcases hg : p.use_gravity <;> simp [hg]

/-- C10: `rendering_system` issues no GPU write on any world (the
render-queue lookup always returns `None`), and `run_systems` therefore
issues no GPU write either: it changes only `Transform2DComponent` and
`PhysicsComponent` data, leaving every renderable (and its model),
every 3D transform, entity ids and the entity table untouched. -/
theorem run_systems_issues_no_gpu_writes (s c : ℚ → ℚ) (m : EcsManager) (dt : ℚ) :
    (∀ w : World, rendering_system s c w = []) ∧
    (m.run_systems s c dt).2 = [] ∧
    (m.run_systems s c dt).1.world.map EntityRecord.renderable =
      m.world.map EntityRecord.renderable ∧
    (m.run_systems s c dt).1.world.map EntityRecord.transform3d =
      m.world.map EntityRecord.transform3d ∧
    (m.run_systems s c dt).1.world.map EntityRecord.id = m.world.map EntityRecord.id ∧
    (m.run_systems s c dt).1.entity_map = m.entity_map := by
  have hrs : ∀ w : World, rendering_system s c w = [] := by
    intro w
    unfold rendering_system
    rw [foldr_append_nil _ (rendering_system_step2d_nil s c) w,
      foldr_append_nil _ rendering_system_step3d_nil w]
    rfl
  have ht := transform_system_touches_only_transform2d m.world dt
  have hp := physics_system_touches_only_physics (transform_system m.world dt) dt
  refine ⟨hrs, hrs _, ?_, ?_, ?_, rfl⟩
  · exact hp.1.trans ht.1
  · exact hp.2.1.trans ht.2.1
  · exact hp.2.2.2.trans ht.2.2.2

/-! ## Claim C1 -/

/-- A stand-in for `sin` (its value never affects a settled property). -/
def zeroSin : ℚ → ℚ := fun _ => 0

/-- A stand-in for `cos`. -/
def oneCos : ℚ → ℚ := fun _ => 1

/-- An entity at the origin, at rest, affected by gravity. -/
def gravityEntity : EntityRecord :=
  ⟨0, some ⟨⟨0, 0⟩, 0, ⟨1, 1⟩⟩, none, some ⟨⟨0, 0⟩, 0, 1, true⟩, none⟩

/-- A manager holding just `gravityEntity`. -/
def gravityManager : EcsManager := ⟨[gravityEntity], []⟩

/-- The tick order the claim asserts, for comparison: physics system
first, then transform system, then rendering-sync. -/
def spec_order_run (s c : ℚ → ℚ) (m : EcsManager) (dt : ℚ) :
    EcsManager × List GpuWrite :=
  let w1 := physics_system m.world dt
  let w2 := transform_system w1 dt
  ({ m with world := w2 }, rendering_system s c w2)

/-- C1 counterexample: on a resting entity with gravity and `dt = 1`,
`run_systems` leaves the position at `(0, 0)` (the transform system ran
before gravity reached the velocity), while the claimed
physics-first order would move it to `(0, -9.81)`: the systems do not
execute physics-first. -/
theorem run_systems_order_counterexample :
    EcsManager.run_systems zeroSin oneCos gravityManager 1 ≠
      spec_order_run zeroSin oneCos gravityManager 1 := by
  intro h
  simp only [EcsManager.run_systems, spec_order_run, gravityManager, gravityEntity,
    transform_system, physics_system, List.map_cons, List.map_nil, Vec2.add, Vec2.smul,
    Prod.mk.injEq, EcsManager.mk.injEq, List.cons.injEq, EntityRecord.mk.injEq,
    Option.some.injEq, Transform2DComponent.mk.injEq, PhysicsComponent.mk.injEq,
    Vec2.mk.injEq, if_true] at h
  rcases h with ⟨h1, -⟩
  norm_num at h1

/-- C1 (amended): `run_systems(dt)` executes the transform system
first, then the physics system, then the rendering-sync system;
consequently, on an entity with gravity, the position integrates the
velocity the entity had before gravity was applied this tick, while
the velocity does receive the gravity increment. -/
theorem run_systems_order_transform_then_physics (s c : ℚ → ℚ) (m : EcsManager) (dt : ℚ) :
    m.run_systems s c dt =
      ({ m with world := physics_system (transform_system m.world dt) dt },
       rendering_system s c (physics_system (transform_system m.world dt) dt)) ∧
    ∀ (i : ℕ) (pos : Vec2) (rot : ℚ) (scl : Vec2) (vel : Vec2) (av mass : ℚ),
      (EcsManager.run_systems s c
          ⟨[⟨i, some ⟨pos, rot, scl⟩, none, some ⟨vel, av, mass, true⟩, none⟩], []⟩ dt).1.world =
        [⟨i, some ⟨pos.add (vel.smul dt), rot + av * dt, scl⟩, none,
          some ⟨vel.add (Vec2.smul ⟨0, -981 / 100⟩ dt), av, mass, true⟩, none⟩] := by
  refine ⟨rfl, ?_⟩
  intro i pos rot scl vel av mass
  simp [EcsManager.run_systems, transform_system, physics_system]

end Mirage
